import Mathlib

/-!
# conductor-go `internal/testdata/util.go`: a shallow embedding

The Go helpers of `internal/testdata/util.go` drive a remote workflow engine
through the SDK clients (`MetadataClient`, `WorkflowClient`,
`WorkflowExecutor`, a `*workflow.ConductorWorkflow`).  The embedding is by
explicit state passing:

* the state is a `Trace`, the list of externally visible events (collaborator
  calls, `time.Sleep`, `fmt.Println`, channel sends) in the order they happen;
* the collaborators are a record of total functions (`Collaborators`), each
  taking the number of earlier calls of the same operation, so that a stub may
  answer differently on each call ("fails twice, then succeeds");
* a Go `error` is `Option String` (`none` is `nil`, `some msg` an error whose
  `Error()` is `msg`);
* a Go panic is the `Outcome.panic` result, a fatal run-time error (out of
  memory) the `Outcome.fatal` result;
* `make` of a slice follows the run-time function `makeslice` on a 64-bit
  platform: it panics when the length is negative or the size in bytes passes
  the allocation limit of the run time, and the allocation fails when the
  memory is not available (`Runtime`).

`log.Debug` calls are not events: `init` sets the logger to `ErrorLevel`, so
they print nothing.  Their arguments are still evaluated, which matters where
an argument dereferences a pointer.
-/

namespace Testdata

/-! ## Data model -/

/-- Go `error`: `none` is `nil`, `some msg` is an error with message `msg`. -/
abbrev GoError := Option String

/-- Go `time.Duration`, a count of nanoseconds. -/
abbrev Duration := Int

/-- Go `time.Second`. -/
def Second : Duration := 1000000000

/-- Result of running a Go function: a normal return, a run-time panic, or a
fatal error that ends the process. -/
inductive Outcome (α : Type) where
  | ret (a : α)
  | panic (msg : String)
  | fatal (msg : String)
  deriving DecidableEq, Repr

/-- Message of the panic raised by dereferencing a nil pointer. -/
def nilDereference : String :=
  "runtime error: invalid memory address or nil pointer dereference"

/-- Message of the panic raised by `make` with a length that is negative or
too large. -/
def makesliceLen : String := "runtime error: makeslice: len out of range"

/-- Message of the fatal error raised when an allocation cannot be served. -/
def outOfMemory : String := "runtime: out of memory"

/-- The Go run time the helpers run on (64-bit): `maxAlloc` is the largest
allocation in bytes the run time accepts (a constant of the platform, 2^48 on
linux/amd64), `heapAvailable` the number of bytes the allocator can still
obtain. -/
structure Runtime where
  maxAlloc : Nat
  heapAvailable : Nat
  deriving DecidableEq, Repr

/-- Size in bytes of a Go `string` header on a 64-bit platform. -/
def stringSize : Nat := 16

/-- Size in bytes of a Go pointer on a 64-bit platform. -/
def pointerSize : Nat := 8

/-- Go `make([]T, len)` for an element type of `elemSize` bytes, after the run
time function `makeslice`: it panics when `len` is negative, when the size in
bytes overflows a machine word or passes `maxAlloc`; the allocation is a fatal
error when the memory is not available; otherwise the slice has `len` zeroed
elements and the result is that length. -/
def makeslice (rt : Runtime) (elemSize : Nat) (len : Int) : Outcome Nat :=
  if len < 0 ∨ 2 ^ 64 ≤ elemSize * len.toNat ∨ rt.maxAlloc < elemSize * len.toNat then
    Outcome.panic makesliceLen
  else if rt.heapAvailable < elemSize * len.toNat then
    Outcome.fatal outOfMemory
  else
    Outcome.ret len.toNat

/-- Values stored under the Go type `interface{}` in an output map: their
`reflect.DeepEqual` and the `%+v` rendering of a map of them. -/
class GoValue (V : Type) where
  deepEqual : V → V → Bool
  formatMap : Option (List (String × V)) → String

/-- Go `map[string]interface{}`: `none` is the nil map, `some kvs` a non-nil
map holding the bindings `kvs` (keys pairwise distinct). -/
abbrev GoMap (V : Type) := Option (List (String × V))

/-- Go `make(map[string]interface{})`: a non-nil map without entries. -/
def emptyMap {V : Type} : GoMap V := some []

/-- Go `reflect.DeepEqual` on two `map[string]interface{}` values: both nil or
both non-nil, same length, and every key of the first is bound in the second
to a deeply equal value. -/
def DeepEqual {V : Type} [GoValue V] (a b : GoMap V) : Bool :=
  match a, b with
  | none, none => true
  | some xs, some ys =>
    xs.length == ys.length &&
      xs.all (fun kv =>
        match ys.lookup kv.1 with
        | some v => GoValue.deepEqual kv.2 v
        | none => false)
  | _, _ => false

/-- Modelled from the spec: the type `model.WorkflowStatus`, declared in the
`model` package of the SDK; its values are the status names (RUNNING,
COMPLETED, FAILED, ...), printed with `%s` by the helpers. -/
abbrev WorkflowStatus := String

/-- Modelled from the spec: the constant `model.CompletedWorkflow`, declared in
the `model` package of the SDK; the spec names the status `COMPLETED`. -/
def CompletedWorkflow : WorkflowStatus := "COMPLETED"

/-- Modelled from the spec: the type `model.Workflow`, declared in the `model`
package of the SDK, with the fields the helpers read (handle, status, output
mapping). -/
structure Workflow (V : Type) where
  WorkflowId : String
  Status : WorkflowStatus
  Output : GoMap V

/-- Go `workflow.ConductorWorkflow`, with what `GetName` and `GetVersion`
return. -/
structure ConductorWorkflow where
  name : String
  version : Int
  deriving DecidableEq, Repr

/-- Go `model.StartWorkflowRequest` as built by `model.NewStartWorkflowRequest`. -/
structure StartWorkflowRequest (V : Type) where
  Name : String
  Version : Int
  CorrelationId : String
  Input : GoMap V

/-- Modelled from the spec: the type `executor.RunningWorkflow`, declared in
the `executor` package of the SDK, with the fields the helpers read (handle,
completed result, error). -/
structure RunningWorkflow (V : Type) where
  WorkflowId : String
  CompletedWorkflow : Option (Workflow V)
  Err : GoError

/-- Go `model.TaskDef`. -/
structure TaskDef where
  Name : String
  deriving DecidableEq, Repr

/-- Go `http.Response`. -/
structure HttpResponse where
  StatusCode : Int
  Status : String
  deriving DecidableEq, Repr

/-- Go `executor.WorkflowExecutionChannel`, identified by a number. -/
abbrev WorkflowExecutionChannel := Nat

/-- Externally visible events, in the order they happen. -/
inductive Event where
  | Register (name : String) (overwrite : Bool)
  | Sleep (d : Duration)
  | Println (line : String)
  | GetExecutionStatus (workflowId : String)
  | Send (channel : Nat) (value : GoError)
  | StartWorkflow (workflowName : String)
  | StartWorkflowWithInput (name : String)
  | MonitorExecution (workflowId : String)
  | WaitForWorkflowCompletionUntilTimeout (channel : WorkflowExecutionChannel) (timeout : Duration)
  | StartWorkflows (waitForCompletion : Bool) (requests : Nat)
  | WaitForRunningWorkflowsUntilTimeout (timeout : Duration) (running : Nat)
  | RegisterTaskDef (taskDefs : List TaskDef)
  deriving DecidableEq, Repr

/-- The state threaded through the helpers. -/
abbrev Trace := List Event

/-- The external collaborators.  The first argument of each operation is the
number of earlier calls of that operation in the trace. -/
structure Collaborators (V : Type) where
  Register : Nat → ConductorWorkflow → Bool → GoError
  GetExecutionStatus : Nat → String → Workflow V × GoError
  StartWorkflow : Nat → GoMap V → String → String × GoError
  StartWorkflowWithInput : Nat → ConductorWorkflow → GoMap V → String × GoError
  MonitorExecution : Nat → String → WorkflowExecutionChannel × GoError
  WaitForWorkflowCompletionUntilTimeout :
    Nat → WorkflowExecutionChannel → Duration → Option (Workflow V) × GoError
  StartWorkflows :
    Nat → Bool → List (Option (StartWorkflowRequest V)) → List (RunningWorkflow V)
  WaitForRunningWorkflowsUntilTimeout :
    Nat → Duration → List (RunningWorkflow V) → List (RunningWorkflow V)
  RegisterTaskDef : Nat → List TaskDef → Option HttpResponse × GoError

/-! ## Observations on traces -/

/-- Number of `Register` calls in a trace. -/
def registerCalls (t : Trace) : Nat :=
  t.countP (fun e => match e with | .Register _ _ => true | _ => false)

/-- Number of `GetExecutionStatus` calls in a trace. -/
def getExecutionStatusCalls (t : Trace) : Nat :=
  t.countP (fun e => match e with | .GetExecutionStatus _ => true | _ => false)

/-- Number of `WorkflowClient.StartWorkflow` calls in a trace. -/
def startWorkflowCalls (t : Trace) : Nat :=
  t.countP (fun e => match e with | .StartWorkflow _ => true | _ => false)

/-- Number of `StartWorkflowWithInput` calls in a trace. -/
def startWorkflowWithInputCalls (t : Trace) : Nat :=
  t.countP (fun e => match e with | .StartWorkflowWithInput _ => true | _ => false)

/-- Number of `MonitorExecution` calls in a trace. -/
def monitorExecutionCalls (t : Trace) : Nat :=
  t.countP (fun e => match e with | .MonitorExecution _ => true | _ => false)

/-- Number of `WaitForWorkflowCompletionUntilTimeout` calls in a trace. -/
def waitForWorkflowCompletionCalls (t : Trace) : Nat :=
  t.countP (fun e =>
    match e with | .WaitForWorkflowCompletionUntilTimeout _ _ => true | _ => false)

/-- Number of `WorkflowExecutor.StartWorkflows` calls in a trace. -/
def startWorkflowsCalls (t : Trace) : Nat :=
  t.countP (fun e => match e with | .StartWorkflows _ _ => true | _ => false)

/-- Number of `WaitForRunningWorkflowsUntilTimeout` calls in a trace. -/
def waitForRunningWorkflowsCalls (t : Trace) : Nat :=
  t.countP (fun e =>
    match e with | .WaitForRunningWorkflowsUntilTimeout _ _ => true | _ => false)

/-- Number of `RegisterTaskDef` calls in a trace. -/
def registerTaskDefCalls (t : Trace) : Nat :=
  t.countP (fun e => match e with | .RegisterTaskDef _ => true | _ => false)

/-- The durations passed to `time.Sleep`, in order. -/
def sleeps (t : Trace) : List Duration :=
  t.filterMap (fun e => match e with | .Sleep d => some d | _ => none)

/-- The values sent on channel `ch`, in order. -/
def sent (ch : Nat) (t : Trace) : List GoError :=
  t.filterMap (fun e =>
    match e with
    | .Send c v => if c = ch then some v else none
    | _ => none)

/-! ## Primitive steps -/

section Steps

variable {V : Type}

/-- Go `time.Sleep(d)`. -/
def timeSleep (d : Duration) (t : Trace) : Trace := t ++ [Event.Sleep d]

/-- Go `fmt.Println(line)`. -/
def fmtPrintln (line : String) (t : Trace) : Trace := t ++ [Event.Println line]

/-- Go `ch <- value`. -/
def chanSend (ch : Nat) (value : GoError) (t : Trace) : Trace :=
  t ++ [Event.Send ch value]

/-- Go `workflow.Register(overwrite)`. -/
def callRegister (c : Collaborators V) (workflow : ConductorWorkflow) (overwrite : Bool)
    (t : Trace) : GoError × Trace :=
  (c.Register (registerCalls t) workflow overwrite,
    t ++ [Event.Register workflow.name overwrite])

/-- Go `WorkflowClient.GetExecutionStatus(ctx, workflowId, nil)`. -/
def callGetExecutionStatus (c : Collaborators V) (workflowId : String) (t : Trace) :
    (Workflow V × GoError) × Trace :=
  (c.GetExecutionStatus (getExecutionStatusCalls t) workflowId,
    t ++ [Event.GetExecutionStatus workflowId])

/-- Go `WorkflowClient.StartWorkflow(ctx, input, workflowName, nil)`. -/
def callStartWorkflow (c : Collaborators V) (input : GoMap V) (workflowName : String)
    (t : Trace) : (String × GoError) × Trace :=
  (c.StartWorkflow (startWorkflowCalls t) input workflowName,
    t ++ [Event.StartWorkflow workflowName])

/-- Go `conductorWorkflow.StartWorkflowWithInput(input)`. -/
def callStartWorkflowWithInput (c : Collaborators V) (workflow : ConductorWorkflow)
    (input : GoMap V) (t : Trace) : (String × GoError) × Trace :=
  (c.StartWorkflowWithInput (startWorkflowWithInputCalls t) workflow input,
    t ++ [Event.StartWorkflowWithInput workflow.name])

/-- Go `WorkflowExecutor.MonitorExecution(workflowId)`. -/
def callMonitorExecution (c : Collaborators V) (workflowId : String) (t : Trace) :
    (WorkflowExecutionChannel × GoError) × Trace :=
  (c.MonitorExecution (monitorExecutionCalls t) workflowId,
    t ++ [Event.MonitorExecution workflowId])

/-- Go `executor.WaitForWorkflowCompletionUntilTimeout(channel, timeout)`. -/
def callWaitForWorkflowCompletionUntilTimeout (c : Collaborators V)
    (channel : WorkflowExecutionChannel) (timeout : Duration) (t : Trace) :
    (Option (Workflow V) × GoError) × Trace :=
  (c.WaitForWorkflowCompletionUntilTimeout (waitForWorkflowCompletionCalls t) channel timeout,
    t ++ [Event.WaitForWorkflowCompletionUntilTimeout channel timeout])

/-- Go `WorkflowExecutor.StartWorkflows(waitForCompletion, requests...)`. -/
def callStartWorkflows (c : Collaborators V) (waitForCompletion : Bool)
    (requests : List (Option (StartWorkflowRequest V))) (t : Trace) :
    List (RunningWorkflow V) × Trace :=
  (c.StartWorkflows (startWorkflowsCalls t) waitForCompletion requests,
    t ++ [Event.StartWorkflows waitForCompletion requests.length])

/-- Go `WorkflowExecutor.WaitForRunningWorkflowsUntilTimeout(timeout, running...)`.
The slice holds pointers and the call fills in the records they point to; the
result is the list of those records after the call. -/
def callWaitForRunningWorkflowsUntilTimeout (c : Collaborators V) (timeout : Duration)
    (running : List (RunningWorkflow V)) (t : Trace) : List (RunningWorkflow V) × Trace :=
  (c.WaitForRunningWorkflowsUntilTimeout (waitForRunningWorkflowsCalls t) timeout running,
    t ++ [Event.WaitForRunningWorkflowsUntilTimeout timeout running.length])

/-- Go `MetadataClient.RegisterTaskDef(ctx, taskDefs)`. -/
def callRegisterTaskDef (c : Collaborators V) (taskDefs : List TaskDef) (t : Trace) :
    (Option HttpResponse × GoError) × Trace :=
  (c.RegisterTaskDef (registerTaskDefCalls t) taskDefs, t ++ [Event.RegisterTaskDef taskDefs])

end Steps

/-! ## The helpers of `util.go` -/

section Helpers

variable {V : Type}

/-- Go `isWorkflowCompleted` (util.go:227), on a non-nil `workflow`. -/
def isWorkflowCompleted (workflow : Workflow V) (expectedStatus : WorkflowStatus) : Bool :=
  workflow.Status == expectedStatus

/-- The `for attempt := 0; attempt < 5; attempt += 1` loop of
`ValidateWorkflowRegistration` (util.go:215-224), over the values of `attempt`
still to run. -/
def ValidateWorkflowRegistration.loop (c : Collaborators V) (workflow : ConductorWorkflow) :
    List Nat → Trace → GoError × Trace
  | [], t => (some "exhausted retries", t)
  | attempt :: rest, t =>
    let (err, t1) := callRegister c workflow true t
    match err with
    | some e =>
      let t2 := timeSleep (((attempt : Int) + 2) * Second) t1
      let t3 := fmtPrintln ("Failed to validate workflow registration, reason: " ++ e) t2
      ValidateWorkflowRegistration.loop c workflow rest t3
    | none => (none, t1)

/-- Go `ValidateWorkflowRegistration` (util.go:214). -/
def ValidateWorkflowRegistration (c : Collaborators V) (workflow : ConductorWorkflow)
    (t : Trace) : GoError × Trace :=
  ValidateWorkflowRegistration.loop c workflow (List.range 5) t

/-- Go `ValidateWorkflowDaemon` (util.go:65).  The verdict is sent on
`outputChannel`; the result is the trace after the function has run. -/
def ValidateWorkflowDaemon [GoValue V] (c : Collaborators V) (waitTime : Duration)
    (outputChannel : Nat) (workflowId : String) (expectedOutput : GoMap V)
    (expectedStatus : WorkflowStatus) (t : Trace) : Trace :=
  let t1 := timeSleep waitTime t
  let ((workflow, err), t2) := callGetExecutionStatus c workflowId t1
  match err with
  | some e => chanSend outputChannel (some e) t2
  | none =>
    if !isWorkflowCompleted workflow expectedStatus then
      chanSend outputChannel
        (some ("workflow status different than expected, workflowId: " ++ workflow.WorkflowId
          ++ ", workflowStatus: " ++ workflow.Status)) t2
    else if !DeepEqual workflow.Output expectedOutput then
      chanSend outputChannel
        (some ("workflow output is different than expected, workflowId: " ++ workflow.WorkflowId
          ++ ", output: " ++ GoValue.formatMap workflow.Output)) t2
    else
      chanSend outputChannel none t2

/-- The `for i := 0; i < workflowQty; i += 1` loop of `StartWorkflows`
(util.go:119-135), over the values of `i` still to run. -/
def StartWorkflows.loop (c : Collaborators V) (workflowName : String) :
    List Nat → List String → Trace → (Option (List String) × GoError) × Trace
  | [], workflowIdList, t => ((some workflowIdList, none), t)
  | i :: rest, workflowIdList, t =>
    let ((workflowId, err), t1) := callStartWorkflow c emptyMap workflowName t
    match err with
    | some e => ((none, some e), t1)
    | none => StartWorkflows.loop c workflowName rest (workflowIdList.set i workflowId) t1

/-- Go `StartWorkflows` (util.go:117).  A slice is `none` when nil. -/
def StartWorkflows (rt : Runtime) (c : Collaborators V) (workflowQty : Int)
    (workflowName : String) (t : Trace) :
    Outcome (Option (List String) × GoError) × Trace :=
  match makeslice rt stringSize workflowQty with
  | Outcome.panic msg => (Outcome.panic msg, t)
  | Outcome.fatal msg => (Outcome.fatal msg, t)
  | Outcome.ret len =>
    let workflowIdList := List.replicate len ""
    let (r, t1) :=
      StartWorkflows.loop c workflowName (List.range workflowQty.toNat) workflowIdList t
    (Outcome.ret r, t1)

/-- Go `ValidateWorkflow` (util.go:139). -/
def ValidateWorkflow (c : Collaborators V) (conductorWorkflow : ConductorWorkflow)
    (timeout : Duration) (expectedStatus : WorkflowStatus) (t : Trace) :
    Outcome GoError × Trace :=
  let (err, t1) := ValidateWorkflowRegistration c conductorWorkflow t
  match err with
  | some e => (Outcome.ret (some e), t1)
  | none =>
    let ((workflowId, err), t2) := callStartWorkflowWithInput c conductorWorkflow emptyMap t1
    match err with
    | some e => (Outcome.ret (some e), t2)
    | none =>
      let ((workflowExecutionChannel, err), t3) := callMonitorExecution c workflowId t2
      match err with
      | some e => (Outcome.ret (some e), t3)
      | none =>
        let ((workflow, err), t4) :=
          callWaitForWorkflowCompletionUntilTimeout c workflowExecutionChannel timeout t3
        match err with
        | some e => (Outcome.ret (some e), t4)
        | none =>
          match workflow with
          | none => (Outcome.panic nilDereference, t4)
          | some wf =>
            if !isWorkflowCompleted wf expectedStatus then
              (Outcome.ret (some ("workflow finished with unexpected status: " ++ wf.Status)), t4)
            else
              (Outcome.ret none, t4)

/-- The `for _, runningWorkflow := range runningWorkflows` loop of
`ValidateWorkflowBulk` (util.go:185-196); `err` is the variable assigned by the
registration step, which is what line 187 returns. -/
def ValidateWorkflowBulk.loop (err : GoError) : List (RunningWorkflow V) → GoError
  | [] => none
  | runningWorkflow :: rest =>
    if runningWorkflow.Err ≠ none then
      err
    else
      match runningWorkflow.CompletedWorkflow with
      | none => some "invalid completed workflows"
      | some completed =>
        if !isWorkflowCompleted completed CompletedWorkflow then
          some ("workflow finished with status: " ++ completed.Status)
        else
          ValidateWorkflowBulk.loop err rest

/-- The `for i := 0; i < amount; i += 1` loop of `ValidateWorkflowBulk`
(util.go:175-182) filling the slice of `len` nil requests made on line 174. -/
def ValidateWorkflowBulk.requests (conductorWorkflow : ConductorWorkflow) (version : Int)
    (amount : Nat) (len : Nat) : List (Option (StartWorkflowRequest V)) :=
  (List.range amount).foldl
    (fun startWorkflowRequests i =>
      startWorkflowRequests.set i
        (some { Name := conductorWorkflow.name, Version := version, CorrelationId := "",
                Input := emptyMap }))
    (List.replicate len none)

/-- Go `ValidateWorkflowBulk` (util.go:168). -/
def ValidateWorkflowBulk (rt : Runtime) (c : Collaborators V)
    (conductorWorkflow : ConductorWorkflow) (timeout : Duration) (amount : Int) (t : Trace) :
    Outcome GoError × Trace :=
  let (err, t1) := ValidateWorkflowRegistration c conductorWorkflow t
  match err with
  | some e => (Outcome.ret (some e), t1)
  | none =>
    let version := conductorWorkflow.version
    match makeslice rt pointerSize amount with
    | Outcome.panic msg => (Outcome.panic msg, t1)
    | Outcome.fatal msg => (Outcome.fatal msg, t1)
    | Outcome.ret len =>
      let startWorkflowRequests :=
        ValidateWorkflowBulk.requests conductorWorkflow version amount.toNat len
      let (runningWorkflows, t2) := callStartWorkflows c true startWorkflowRequests t1
      let (runningWorkflows, t3) :=
        callWaitForRunningWorkflowsUntilTimeout c timeout runningWorkflows t2
      (Outcome.ret (ValidateWorkflowBulk.loop err runningWorkflows), t3)

/-- Go `ValidateTaskRegistration` (util.go:199).  The arguments of `log.Debug`
on lines 205-208, among them `*response`, are evaluated before the call. -/
def ValidateTaskRegistration (c : Collaborators V) (taskDefs : List TaskDef) (t : Trace) :
    Outcome GoError × Trace :=
  let ((response, err), t1) := callRegisterTaskDef c taskDefs t
  match err with
  | some e =>
    match response with
    | none => (Outcome.panic nilDereference, t1)
    | some _ => (Outcome.ret (some e), t1)
  | none => (Outcome.ret none, t1)

end Helpers



/-! ## Concrete collaborators used to instantiate the theorems -/

/-- Output values that are plain strings, compared by equality; a map is
printed as `%+v` does, its entries in increasing order of the keys. -/
instance : GoValue String where
  deepEqual := fun a b => a == b
  formatMap := fun m =>
    match m with
    | none => "map[]"
    | some kvs =>
      "map[" ++ " ".intercalate
        ((kvs.insertionSort (fun a b => a.1 ≤ b.1)).map (fun kv => kv.1 ++ ":" ++ kv.2)) ++ "]"

/-- A 64-bit run time with the allocation limit of linux/amd64 (2^48 bytes)
and 16 GiB of memory to hand out. -/
def linuxAmd64 : Runtime := { maxAlloc := 2 ^ 48, heapAvailable := 2 ^ 34 }

/-- The workflow definition used in the examples. -/
def demoWorkflow : ConductorWorkflow := { name := "demo", version := 1 }

/-- A finished workflow with an empty, non-nil output. -/
def finishedWorkflow (workflowId : String) (status : WorkflowStatus) : Workflow String :=
  { WorkflowId := workflowId, Status := status, Output := emptyMap }

/-- A stub on which every operation succeeds: workflows start with ids
"a", "b", "c", ... and finish with status COMPLETED and output {}. -/
def stubAllSucceed : Collaborators String where
  Register := fun _ _ _ => none
  GetExecutionStatus := fun _ workflowId => (finishedWorkflow workflowId "COMPLETED", none)
  StartWorkflow := fun n _ _ => (["a", "b", "c"].getD n "z", none)
  StartWorkflowWithInput := fun _ _ _ => ("wf-1", none)
  MonitorExecution := fun _ _ => (0, none)
  WaitForWorkflowCompletionUntilTimeout := fun _ _ _ =>
    (some (finishedWorkflow "wf-1" "COMPLETED"), none)
  StartWorkflows := fun _ _ requests =>
    requests.map (fun _ => { WorkflowId := "wf", CompletedWorkflow := none, Err := none })
  WaitForRunningWorkflowsUntilTimeout := fun _ _ running =>
    running.map (fun r =>
      { r with CompletedWorkflow := some (finishedWorkflow r.WorkflowId "COMPLETED") })
  RegisterTaskDef := fun _ _ => (some { StatusCode := 200, Status := "200 OK" }, none)

/-- A stub whose first `failures` Register calls fail and whose later ones
succeed. -/
def stubRegisterFailing (failures : Nat) : Collaborators String :=
  { stubAllSucceed with
    Register := fun n _ _ => if n < failures then some "registry unavailable" else none }

/-- A stub whose every Register call fails. -/
def stubRegisterNever : Collaborators String :=
  { stubAllSucceed with Register := fun _ _ _ => some "registry unavailable" }

/-- A stub whose StartWorkflow call number `j` (0-based) fails and whose other
calls succeed. -/
def stubStartFailingAt (j : Nat) : Collaborators String :=
  { stubAllSucceed with
    StartWorkflow := fun n _ _ =>
      if n = j then ("", some "start rejected") else (["a", "b", "c"].getD n "z", none) }

/-- A stub whose status query succeeds with the given status and output. -/
def stubStatusQuery (status : WorkflowStatus) (output : GoMap String) : Collaborators String :=
  { stubAllSucceed with
    GetExecutionStatus := fun _ workflowId =>
      ({ WorkflowId := workflowId, Status := status, Output := output }, none) }

/-- A stub whose bounded wait times out. -/
def stubWaitTimeout : Collaborators String :=
  { stubAllSucceed with
    WaitForWorkflowCompletionUntilTimeout := fun _ _ _ => (none, some "wait timeout") }

/-- A stub whose bulk run resolves the instances, in order, to the given
statuses. -/
def stubBulkStatuses (statuses : List WorkflowStatus) : Collaborators String :=
  { stubAllSucceed with
    WaitForRunningWorkflowsUntilTimeout := fun _ _ running =>
      List.zipWith
        (fun r status =>
          { r with CompletedWorkflow := some (finishedWorkflow r.WorkflowId status) })
        running statuses }

/-- A stub whose bulk run leaves every instance with a start error. -/
def stubBulkInstanceError : Collaborators String :=
  { stubAllSucceed with
    WaitForRunningWorkflowsUntilTimeout := fun _ _ running =>
      running.map (fun r => { r with Err := some "workflow start rejected" }) }

/-- A stub whose RegisterTaskDef call fails in transport: no response, an
error. -/
def stubTransportFailure : Collaborators String :=
  { stubAllSucceed with RegisterTaskDef := fun _ _ => (none, some "connection refused") }

/-- An instance of a bulk run resolved without error to the given status. -/
def resolvedInstance (status : WorkflowStatus) : RunningWorkflow String :=
  { WorkflowId := "wf", CompletedWorkflow := some (finishedWorkflow "wf" status), Err := none }

section RegistrationLemmas

variable {V : Type}

theorem registerCalls_append (t u : Trace) :
    registerCalls (t ++ u) = registerCalls t + registerCalls u := by
  simp [registerCalls, List.countP_append]

theorem sleeps_append (t u : Trace) : sleeps (t ++ u) = sleeps t ++ sleeps u := by
  simp [sleeps, List.filterMap_append]

/-- One iteration of the retry loop whose Register call succeeds. -/
theorem ValidateWorkflowRegistration.loop_cons_ok (c : Collaborators V)
    (workflow : ConductorWorkflow) (attempt : Nat) (rest : List Nat) (t : Trace)
    (h : c.Register (registerCalls t) workflow true = none) :
    ValidateWorkflowRegistration.loop c workflow (attempt :: rest) t
      = (none, t ++ [Event.Register workflow.name true]) := by
  simp only [ValidateWorkflowRegistration.loop, callRegister, h]

/-- One iteration of the retry loop whose Register call fails with `e`. -/
theorem ValidateWorkflowRegistration.loop_cons_fail (c : Collaborators V)
    (workflow : ConductorWorkflow) (attempt : Nat) (rest : List Nat) (t : Trace) (e : String)
    (h : c.Register (registerCalls t) workflow true = some e) :
    ValidateWorkflowRegistration.loop c workflow (attempt :: rest) t
      = ValidateWorkflowRegistration.loop c workflow rest
          (t ++ [Event.Register workflow.name true, Event.Sleep (((attempt : Int) + 2) * Second),
            Event.Println ("Failed to validate workflow registration, reason: " ++ e)]) := by
  simp only [ValidateWorkflowRegistration.loop, callRegister, h, fmtPrintln, timeSleep,
    List.append_assoc, List.singleton_append, List.cons_append, List.nil_append]

/-- Master description of the retry loop: if the first `m` Register calls fail
and (when attempts remain) the next one succeeds, the loop makes `m` failed
calls, each followed by its sleep, then stops. -/
theorem ValidateWorkflowRegistration.loop_spec (c : Collaborators V)
    (workflow : ConductorWorkflow) (attempts : List Nat) :
    ∀ (t : Trace) (m : Nat), m ≤ attempts.length →
      (∀ i, i < m → c.Register (registerCalls t + i) workflow true ≠ none) →
      (m < attempts.length → c.Register (registerCalls t + m) workflow true = none) →
      (ValidateWorkflowRegistration.loop c workflow attempts t).1
          = (if m < attempts.length then none else some "exhausted retries") ∧
        registerCalls (ValidateWorkflowRegistration.loop c workflow attempts t).2
          = registerCalls t + (if m < attempts.length then m + 1 else m) ∧
        sleeps (ValidateWorkflowRegistration.loop c workflow attempts t).2
          = sleeps t ++ (attempts.take m).map (fun (a : Nat) => ((a : Int) + 2) * Second) := by
  induction attempts with
  | nil =>
    intro t m hm _ _
    have : m = 0 := by simpa using hm
    subst this
    simp [ValidateWorkflowRegistration.loop]
  | cons a rest ih =>
    intro t m hm hfail hok
    cases m with
    | zero =>
      have h0 : c.Register (registerCalls t) workflow true = none := by
        simpa using hok (by simp)
      rw [ValidateWorkflowRegistration.loop_cons_ok c workflow a rest t h0]
      simp [registerCalls_append, sleeps_append, registerCalls, sleeps]
    | succ m =>
      have hne : c.Register (registerCalls t) workflow true ≠ none := by
        simpa using hfail 0 (by omega)
      obtain ⟨e, he⟩ := Option.ne_none_iff_exists'.mp hne
      have hm' : m ≤ rest.length := by simpa using hm
      rw [ValidateWorkflowRegistration.loop_cons_fail c workflow a rest t e he]
      have hcount : registerCalls
          (t ++ [Event.Register workflow.name true, Event.Sleep (((a : Int) + 2) * Second),
            Event.Println ("Failed to validate workflow registration, reason: " ++ e)])
            = registerCalls t + 1 := by
        simp [registerCalls_append, registerCalls]
      have hsl : sleeps
          (t ++ [Event.Register workflow.name true, Event.Sleep (((a : Int) + 2) * Second),
            Event.Println ("Failed to validate workflow registration, reason: " ++ e)])
            = sleeps t ++ [((a : Int) + 2) * Second] := by
        simp [sleeps_append, sleeps]
      have := ih
        (t ++ [Event.Register workflow.name true, Event.Sleep (((a : Int) + 2) * Second),
            Event.Println ("Failed to validate workflow registration, reason: " ++ e)])
        m hm'
        (by
          intro i hi
          rw [hcount]
          have := hfail (i + 1) (by omega)
          rwa [show registerCalls t + 1 + i = registerCalls t + (i + 1) by omega])
        (by
          intro hlt
          rw [hcount]
          have := hok (by simpa using hlt)
          rwa [show registerCalls t + 1 + m = registerCalls t + (m + 1) by omega])
      rw [hcount, hsl] at this
      obtain ⟨h1, h2, h3⟩ := this
      refine ⟨?_, ?_, ?_⟩
      · rw [h1]; simp
      · rw [h2]; simp only [List.length_cons, Nat.add_lt_add_iff_right]; split <;> omega
      · rw [h3]; simp

/-- C1: if every Register call returns an error, ValidateWorkflowRegistration
makes exactly 5 Register calls and returns the error "exhausted retries". -/
theorem ValidateWorkflowRegistration_exhausted (c : Collaborators V)
    (workflow : ConductorWorkflow) (t : Trace)
    (hfail : ∀ n, c.Register n workflow true ≠ none) :
    (ValidateWorkflowRegistration c workflow t).1 = some "exhausted retries" ∧
      registerCalls (ValidateWorkflowRegistration c workflow t).2 = registerCalls t + 5 := by
  have h := ValidateWorkflowRegistration.loop_spec c workflow (List.range 5) t 5 (by simp)
    (fun i _ => hfail _) (by simp)
  exact ⟨by simpa [ValidateWorkflowRegistration] using h.1,
    by simpa [ValidateWorkflowRegistration] using h.2.1⟩

/-- Instance of C1 on a stub whose every Register call fails. -/
theorem ValidateWorkflowRegistration_exhausted_witness :
    (∀ n, stubRegisterNever.Register n demoWorkflow true ≠ none) ∧
      (ValidateWorkflowRegistration stubRegisterNever demoWorkflow []).1
        = some "exhausted retries" ∧
      registerCalls (ValidateWorkflowRegistration stubRegisterNever demoWorkflow []).2
        = registerCalls [] + 5 :=
  ⟨fun _ => by simp [stubRegisterNever],
    ValidateWorkflowRegistration_exhausted stubRegisterNever demoWorkflow []
      (fun _ => by simp [stubRegisterNever])⟩

/-- C2: for 1 ≤ k ≤ 5, if the first k-1 Register calls fail and the k-th
succeeds, ValidateWorkflowRegistration makes exactly k Register calls and
returns nil. -/
theorem ValidateWorkflowRegistration_succeeds_at (c : Collaborators V)
    (workflow : ConductorWorkflow) (t : Trace) (k : Nat) (h1 : 1 ≤ k) (h5 : k ≤ 5)
    (hfail : ∀ i, i < k - 1 → c.Register (registerCalls t + i) workflow true ≠ none)
    (hok : c.Register (registerCalls t + (k - 1)) workflow true = none) :
    (ValidateWorkflowRegistration c workflow t).1 = none ∧
      registerCalls (ValidateWorkflowRegistration c workflow t).2 = registerCalls t + k := by
  have hlt : k - 1 < (List.range 5).length := by simp; omega
  have h := ValidateWorkflowRegistration.loop_spec c workflow (List.range 5) t (k - 1)
    (Nat.le_of_lt hlt) hfail (fun _ => hok)
  rw [if_pos hlt, if_pos hlt] at h
  refine ⟨h.1, ?_⟩
  have h2 := h.2.1
  rw [show k - 1 + 1 = k by omega] at h2
  exact h2

/-- Instance of C2 with k = 3: two failed Register calls, then a success. -/
theorem ValidateWorkflowRegistration_succeeds_at_witness :
    (ValidateWorkflowRegistration (stubRegisterFailing 2) demoWorkflow []).1 = none ∧
      registerCalls (ValidateWorkflowRegistration (stubRegisterFailing 2) demoWorkflow []).2
        = registerCalls [] + 3 :=
  ValidateWorkflowRegistration_succeeds_at (stubRegisterFailing 2) demoWorkflow [] 3
    (by decide) (by decide) (by decide) (by decide)

/-- C10: in ValidateWorkflowRegistration the sleep after the failed attempt
with 0-based index i is (i + 2) seconds: when the first m ≤ 5 Register calls
fail (and the next succeeds if m < 5) the sleeps requested are 2 s, 3 s, ...,
(m + 1) s in this order; the delays increase strictly, by one second per
attempt; and when all 5 attempts fail the sleeps are 2, 3, 4, 5, 6 seconds,
20 seconds in total, and the result is the exhausted-retries error. -/
theorem ValidateWorkflowRegistration_sleeps (c : Collaborators V)
    (workflow : ConductorWorkflow) (t : Trace) (m : Nat) (hm : m ≤ 5)
    (hfail : ∀ i, i < m → c.Register (registerCalls t + i) workflow true ≠ none)
    (hok : m < 5 → c.Register (registerCalls t + m) workflow true = none) :
    sleeps (ValidateWorkflowRegistration c workflow t).2
        = sleeps t ++ (List.range m).map (fun (i : Nat) => ((i : Int) + 2) * Second) ∧
      (∀ i j : Nat, i < j → ((i : Int) + 2) * Second < ((j : Int) + 2) * Second) ∧
      (∀ i : Nat, (((i + 1 : Nat) : Int) + 2) * Second - ((i : Int) + 2) * Second = Second) ∧
      (m = 5 →
        (ValidateWorkflowRegistration c workflow t).1 = some "exhausted retries" ∧
          sleeps (ValidateWorkflowRegistration c workflow t).2
            = sleeps t ++ [2 * Second, 3 * Second, 4 * Second, 5 * Second, 6 * Second] ∧
          [2 * Second, 3 * Second, 4 * Second, 5 * Second, 6 * Second].sum = 20 * Second) := by
  have h := ValidateWorkflowRegistration.loop_spec c workflow (List.range 5) t m
    (by simpa using hm) hfail (by simpa using hok)
  have htake : (List.range 5).take m = List.range m := by
    interval_cases m <;> rfl
  have hs : sleeps (ValidateWorkflowRegistration c workflow t).2
      = sleeps t ++ (List.range m).map (fun (i : Nat) => ((i : Int) + 2) * Second) := by
    rw [← htake]; exact h.2.2
  refine ⟨hs, ?_, ?_, ?_⟩
  · intro i j hij
    have : (i : Int) < j := by exact_mod_cast hij
    simp only [Second]
    omega
  · intro i
    simp only [Second]
    push_cast
    ring
  · intro h5
    subst h5
    refine ⟨?_, ?_, ?_⟩
    · simpa [ValidateWorkflowRegistration] using h.1
    · rw [hs]; simp [List.range, List.range.loop]
    · simp [Second]

/-- Instance of C10 on a stub whose every Register call fails (m = 5). -/
theorem ValidateWorkflowRegistration_sleeps_witness :
    sleeps (ValidateWorkflowRegistration stubRegisterNever demoWorkflow []).2
        = sleeps [] ++ (List.range 5).map (fun (i : Nat) => ((i : Int) + 2) * Second) ∧
      (∀ i j : Nat, i < j → ((i : Int) + 2) * Second < ((j : Int) + 2) * Second) ∧
      (∀ i : Nat, (((i + 1 : Nat) : Int) + 2) * Second - ((i : Int) + 2) * Second = Second) ∧
      (5 = 5 →
        (ValidateWorkflowRegistration stubRegisterNever demoWorkflow []).1
            = some "exhausted retries" ∧
          sleeps (ValidateWorkflowRegistration stubRegisterNever demoWorkflow []).2
            = sleeps [] ++ [2 * Second, 3 * Second, 4 * Second, 5 * Second, 6 * Second] ∧
          [2 * Second, 3 * Second, 4 * Second, 5 * Second, 6 * Second].sum = 20 * Second) :=
  ValidateWorkflowRegistration_sleeps stubRegisterNever demoWorkflow [] 5 (by decide)
    (fun _ _ => by simp [stubRegisterNever]) (by decide)

end RegistrationLemmas



section StartWorkflowsLemmas

variable {V : Type}

theorem startWorkflowCalls_append (t u : Trace) :
    startWorkflowCalls (t ++ u) = startWorkflowCalls t + startWorkflowCalls u := by
  simp [startWorkflowCalls, List.countP_append]

theorem startWorkflowCalls_replicate (k : Nat) (workflowName : String) :
    startWorkflowCalls (List.replicate k (Event.StartWorkflow workflowName)) = k := by
  induction k with
  | zero => simp [startWorkflowCalls]
  | succ k ih =>
    rw [List.replicate_succ]
    simp only [startWorkflowCalls, List.countP_cons] at ih ⊢
    rw [ih]
    simp

theorem take_succ_set {α : Type} (L : List α) :
    ∀ (s : Nat) (x : α), s < L.length → (L.set s x).take (s + 1) = L.take s ++ [x] := by
  induction L with
  | nil => intro s x h; simp at h
  | cons a L ih =>
    intro s x h
    cases s with
    | zero => simp
    | succ s =>
      have hs : s < L.length := by simpa using h
      simp [ih s x hs]

/-- One iteration of the start loop whose StartWorkflow call succeeds. -/
theorem StartWorkflows.loop_step_started (c : Collaborators V) (workflowName : String) (i : Nat)
    (rest : List Nat) (workflowIdList : List String) (t : Trace)
    (h : (c.StartWorkflow (startWorkflowCalls t) emptyMap workflowName).2 = none) :
    StartWorkflows.loop c workflowName (i :: rest) workflowIdList t
      = StartWorkflows.loop c workflowName rest
          (workflowIdList.set i (c.StartWorkflow (startWorkflowCalls t) emptyMap workflowName).1)
          (t ++ [Event.StartWorkflow workflowName]) := by
  simp only [StartWorkflows.loop, callStartWorkflow, h]

/-- One iteration of the start loop whose StartWorkflow call fails with `e`. -/
theorem StartWorkflows.loop_step_rejected (c : Collaborators V) (workflowName : String) (i : Nat)
    (rest : List Nat) (workflowIdList : List String) (t : Trace) (e : String)
    (h : (c.StartWorkflow (startWorkflowCalls t) emptyMap workflowName).2 = some e) :
    StartWorkflows.loop c workflowName (i :: rest) workflowIdList t
      = ((none, some e), t ++ [Event.StartWorkflow workflowName]) := by
  simp only [StartWorkflows.loop, callStartWorkflow, h]

/-- The start loop when all its calls succeed: slots `s .. s+k-1` receive the
ids in call order, and the trace gains `k` start events. -/
theorem StartWorkflows.loop_all_ok (c : Collaborators V) (workflowName : String) :
    ∀ (k s : Nat) (L : List String) (t : Trace), L.length = s + k →
      (∀ i, i < k →
        (c.StartWorkflow (startWorkflowCalls t + i) emptyMap workflowName).2 = none) →
      StartWorkflows.loop c workflowName (List.range' s k) L t
        = ((some (L.take s ++ (List.range k).map (fun i =>
              (c.StartWorkflow (startWorkflowCalls t + i) emptyMap workflowName).1)), none),
            t ++ List.replicate k (Event.StartWorkflow workflowName)) := by
  intro k
  induction k with
  | zero =>
    intro s L t hL _
    have hle : L.length ≤ s := by omega
    simp [StartWorkflows.loop, List.take_of_length_le hle]
  | succ k ih =>
    intro s L t hL hok
    have h0 : (c.StartWorkflow (startWorkflowCalls t) emptyMap workflowName).2 = none := by
      simpa using hok 0 (by omega)
    rw [List.range'_succ, StartWorkflows.loop_step_started c workflowName s _ L t h0]
    have hcount : startWorkflowCalls (t ++ [Event.StartWorkflow workflowName])
        = startWorkflowCalls t + 1 := by
      simp [startWorkflowCalls_append, startWorkflowCalls]
    rw [ih (s + 1) _ (t ++ [Event.StartWorkflow workflowName])
      (by simp [hL]; omega)
      (by
        intro i hi
        rw [hcount, show startWorkflowCalls t + 1 + i = startWorkflowCalls t + (i + 1) by omega]
        exact hok (i + 1) (by omega))]
    rw [take_succ_set L s _ (by omega), hcount, List.range_succ_eq_map]
    simp [List.replicate_succ, Function.comp_def, Nat.add_assoc, Nat.add_comm 1]

/-- The start loop when its call number `j` is the first to fail: it stops
there with a nil slice and that error, after `j + 1` start events. -/
theorem StartWorkflows.loop_first_fail (c : Collaborators V) (workflowName : String) :
    ∀ (k s j : Nat) (L : List String) (t : Trace) (e : String), j < k →
      (∀ i, i < j →
        (c.StartWorkflow (startWorkflowCalls t + i) emptyMap workflowName).2 = none) →
      (c.StartWorkflow (startWorkflowCalls t + j) emptyMap workflowName).2 = some e →
      StartWorkflows.loop c workflowName (List.range' s k) L t
        = ((none, some e), t ++ List.replicate (j + 1) (Event.StartWorkflow workflowName)) := by
  intro k
  induction k with
  | zero => intro s j L t e hj; omega
  | succ k ih =>
    intro s j L t e hj hok herr
    rw [List.range'_succ]
    cases j with
    | zero =>
      rw [StartWorkflows.loop_step_rejected c workflowName s _ L t e (by simpa using herr)]
      simp
    | succ j =>
      have h0 : (c.StartWorkflow (startWorkflowCalls t) emptyMap workflowName).2 = none := by
        simpa using hok 0 (by omega)
      have hcount : startWorkflowCalls (t ++ [Event.StartWorkflow workflowName])
          = startWorkflowCalls t + 1 := by
        simp [startWorkflowCalls_append, startWorkflowCalls]
      rw [StartWorkflows.loop_step_started c workflowName s _ L t h0]
      rw [ih (s + 1) j _ (t ++ [Event.StartWorkflow workflowName]) e (by omega)
        (by
          intro i hi
          rw [hcount, show startWorkflowCalls t + 1 + i = startWorkflowCalls t + (i + 1) by omega]
          exact hok (i + 1) (by omega))
        (by
          rw [hcount, show startWorkflowCalls t + 1 + j = startWorkflowCalls t + (j + 1) by omega]
          exact herr)]
      simp [List.replicate_succ]

/-- When the length is non-negative and its size in bytes fits a machine word,
the allocation limit and the memory available, `make` returns the slice. -/
theorem makeslice_ret (rt : Runtime) (elemSize : Nat) (len : Int) (hlen : 0 ≤ len)
    (hword : elemSize * len.toNat < 2 ^ 64) (hmax : elemSize * len.toNat ≤ rt.maxAlloc)
    (hheap : elemSize * len.toNat ≤ rt.heapAvailable) :
    makeslice rt elemSize len = Outcome.ret len.toNat := by
  have h1 : ¬ (len < 0 ∨ 2 ^ 64 ≤ elemSize * len.toNat ∨ rt.maxAlloc < elemSize * len.toNat) := by
    omega
  have h2 : ¬ rt.heapAvailable < elemSize * len.toNat := by omega
  simp only [makeslice, if_neg h1, if_neg h2]

/-- C7 (amended): for workflowQty = n ≥ 0 such that make([]string, n) succeeds
(16 n bytes fit a machine word, the allocation limit of the run time and the
memory available): if the first n StartWorkflow calls succeed, StartWorkflows
makes exactly n calls and returns the n ids in call order with a nil error; if
call number j < n is the first to fail, it returns a nil list with the error
of that call and makes no call after it (j + 1 calls in all). -/
theorem StartWorkflows_spec (rt : Runtime) (c : Collaborators V) (workflowQty : Int)
    (workflowName : String) (t : Trace) (hq : 0 ≤ workflowQty)
    (hword : stringSize * workflowQty.toNat < 2 ^ 64)
    (hmax : stringSize * workflowQty.toNat ≤ rt.maxAlloc)
    (hheap : stringSize * workflowQty.toNat ≤ rt.heapAvailable) :
    ((∀ i, i < workflowQty.toNat →
        (c.StartWorkflow (startWorkflowCalls t + i) emptyMap workflowName).2 = none) →
      (StartWorkflows rt c workflowQty workflowName t).1
          = Outcome.ret (some ((List.range workflowQty.toNat).map (fun i =>
              (c.StartWorkflow (startWorkflowCalls t + i) emptyMap workflowName).1)), none) ∧
        ((List.range workflowQty.toNat).map (fun i =>
              (c.StartWorkflow (startWorkflowCalls t + i) emptyMap workflowName).1)).length
          = workflowQty.toNat ∧
        (StartWorkflows rt c workflowQty workflowName t).2
          = t ++ List.replicate workflowQty.toNat (Event.StartWorkflow workflowName) ∧
        startWorkflowCalls (StartWorkflows rt c workflowQty workflowName t).2
          = startWorkflowCalls t + workflowQty.toNat) ∧
    (∀ (j : Nat) (e : String), j < workflowQty.toNat →
      (∀ i, i < j →
        (c.StartWorkflow (startWorkflowCalls t + i) emptyMap workflowName).2 = none) →
      (c.StartWorkflow (startWorkflowCalls t + j) emptyMap workflowName).2 = some e →
      (StartWorkflows rt c workflowQty workflowName t).1 = Outcome.ret (none, some e) ∧
        (StartWorkflows rt c workflowQty workflowName t).2
          = t ++ List.replicate (j + 1) (Event.StartWorkflow workflowName) ∧
        startWorkflowCalls (StartWorkflows rt c workflowQty workflowName t).2
          = startWorkflowCalls t + (j + 1)) := by
  have hmake := makeslice_ret rt stringSize workflowQty hq hword hmax hheap
  constructor
  · intro hok
    have h := StartWorkflows.loop_all_ok c workflowName workflowQty.toNat 0
      (List.replicate workflowQty.toNat "") t (by simp) hok
    rw [← List.range_eq_range'] at h
    simp only [StartWorkflows, hmake, h, List.take_zero, List.nil_append]
    refine ⟨trivial, by simp, trivial, ?_⟩
    rw [startWorkflowCalls_append, startWorkflowCalls_replicate]
  · intro j e hj hok herr
    have h := StartWorkflows.loop_first_fail c workflowName workflowQty.toNat 0 j
      (List.replicate workflowQty.toNat "") t e hj hok herr
    rw [← List.range_eq_range'] at h
    simp only [StartWorkflows, hmake, h]
    refine ⟨trivial, trivial, ?_⟩
    rw [startWorkflowCalls_append, startWorkflowCalls_replicate]

/-- Instance of amended C7: StartWorkflows(3, "demo") on ids "a", "b", "c", and
on a stub whose second start call fails. -/
theorem StartWorkflows_spec_witness :
    ((StartWorkflows linuxAmd64 stubAllSucceed 3 "demo" []).1
        = Outcome.ret (some ["a", "b", "c"], none) ∧
      startWorkflowCalls (StartWorkflows linuxAmd64 stubAllSucceed 3 "demo" []).2 = 3) ∧
    ((StartWorkflows linuxAmd64 (stubStartFailingAt 1) 3 "demo" []).1
        = Outcome.ret (none, some "start rejected") ∧
      startWorkflowCalls (StartWorkflows linuxAmd64 (stubStartFailingAt 1) 3 "demo" []).2
        = 2) := by
  have h1 := (StartWorkflows_spec linuxAmd64 stubAllSucceed 3 "demo" [] (by decide)
    (by decide) (by decide) (by decide)).1 (by decide)
  have h2 := (StartWorkflows_spec linuxAmd64 (stubStartFailingAt 1) 3 "demo" [] (by decide)
    (by decide) (by decide) (by decide)).2
    1 "start rejected" (by decide) (by decide) (by decide)
  exact ⟨⟨h1.1, h1.2.2.2⟩, ⟨h2.1, h2.2.2⟩⟩

/-- C7 (as stated) fails: for n = 2^62 ≥ 0 and a stub whose every StartWorkflow
call succeeds, make([]string, n) on line 118 panics (16 n bytes overflow a
machine word), so StartWorkflows returns no list and makes no start call. -/
theorem StartWorkflows_spec_counterexample :
    (0 : Int) ≤ 4611686018427387904 ∧
      (∀ i, (stubAllSucceed.StartWorkflow i emptyMap "demo").2 = none) ∧
      StartWorkflows linuxAmd64 stubAllSucceed 4611686018427387904 "demo" []
        = (Outcome.panic makesliceLen, []) ∧
      startWorkflowCalls
          (StartWorkflows linuxAmd64 stubAllSucceed 4611686018427387904 "demo" []).2 = 0 := by
  have hmake : makeslice linuxAmd64 stringSize 4611686018427387904
      = Outcome.panic makesliceLen := by
    decide
  have hrun : StartWorkflows linuxAmd64 stubAllSucceed 4611686018427387904 "demo" []
      = (Outcome.panic makesliceLen, []) := by
    simp only [StartWorkflows, hmake]
  refine ⟨by decide, fun _ => rfl, hrun, ?_⟩
  rw [hrun]
  rfl

end StartWorkflowsLemmas

section DaemonLemmas

variable {V : Type}

theorem sent_append (ch : Nat) (t u : Trace) : sent ch (t ++ u) = sent ch t ++ sent ch u := by
  simp [sent, List.filterMap_append]

theorem getExecutionStatusCalls_append (t u : Trace) :
    getExecutionStatusCalls (t ++ u) = getExecutionStatusCalls t + getExecutionStatusCalls u := by
  simp [getExecutionStatusCalls, List.countP_append]

/-- The daemon sleeps, queries once and sends one value `v`; `v` is nil exactly
when the three checks pass. -/
theorem ValidateWorkflowDaemon_trace [GoValue V] (c : Collaborators V) (waitTime : Duration)
    (outputChannel : Nat) (workflowId : String) (expectedOutput : GoMap V)
    (expectedStatus : WorkflowStatus) (t : Trace) :
    ∃ v : GoError,
      ValidateWorkflowDaemon c waitTime outputChannel workflowId expectedOutput expectedStatus t
          = t ++ [Event.Sleep waitTime, Event.GetExecutionStatus workflowId,
              Event.Send outputChannel v] ∧
        (v = none ↔
          (c.GetExecutionStatus (getExecutionStatusCalls t) workflowId).2 = none ∧
            (c.GetExecutionStatus (getExecutionStatusCalls t) workflowId).1.Status
              = expectedStatus ∧
            DeepEqual (c.GetExecutionStatus (getExecutionStatusCalls t) workflowId).1.Output
              expectedOutput = true) := by
  have hcount : getExecutionStatusCalls (timeSleep waitTime t) = getExecutionStatusCalls t := by
    simp [timeSleep, getExecutionStatusCalls_append, getExecutionStatusCalls]
  simp only [ValidateWorkflowDaemon, callGetExecutionStatus, hcount]
  generalize c.GetExecutionStatus (getExecutionStatusCalls t) workflowId = q
  obtain ⟨workflow, err⟩ := q
  cases err with
  | some e =>
    exact ⟨some e, by simp [chanSend, timeSleep], by simp⟩
  | none =>
    by_cases hs : workflow.Status = expectedStatus
    · by_cases hd : DeepEqual workflow.Output expectedOutput = true
      · exact ⟨none, by simp [chanSend, timeSleep, isWorkflowCompleted, hs, hd], by simp [hs, hd]⟩
      · exact ⟨_, by simp [chanSend, timeSleep, isWorkflowCompleted, hs, hd]; rfl,
          by simp [hs, hd]⟩
    · exact ⟨_, by simp [chanSend, timeSleep, isWorkflowCompleted, hs]; rfl, by simp [hs]⟩

/-- C6: ValidateWorkflowDaemon makes one status query and delivers exactly
one value on its result channel (and nothing on any other channel); that value
is nil if and only if the query returned no error, the observed status equals
expectedStatus and the observed output deep-equals expectedOutput. -/
theorem ValidateWorkflowDaemon_delivers [GoValue V] (c : Collaborators V) (waitTime : Duration)
    (outputChannel : Nat) (workflowId : String) (expectedOutput : GoMap V)
    (expectedStatus : WorkflowStatus) (t : Trace) :
    ∃ v : GoError,
      sent outputChannel
          (ValidateWorkflowDaemon c waitTime outputChannel workflowId expectedOutput
            expectedStatus t)
        = sent outputChannel t ++ [v] ∧
      (∀ ch, ch ≠ outputChannel →
        sent ch
            (ValidateWorkflowDaemon c waitTime outputChannel workflowId expectedOutput
              expectedStatus t)
          = sent ch t) ∧
      getExecutionStatusCalls
          (ValidateWorkflowDaemon c waitTime outputChannel workflowId expectedOutput
            expectedStatus t)
        = getExecutionStatusCalls t + 1 ∧
      (v = none ↔
        (c.GetExecutionStatus (getExecutionStatusCalls t) workflowId).2 = none ∧
          (c.GetExecutionStatus (getExecutionStatusCalls t) workflowId).1.Status
            = expectedStatus ∧
          DeepEqual (c.GetExecutionStatus (getExecutionStatusCalls t) workflowId).1.Output
            expectedOutput = true) := by
  obtain ⟨v, htrace, hv⟩ :=
    ValidateWorkflowDaemon_trace c waitTime outputChannel workflowId expectedOutput
      expectedStatus t
  refine ⟨v, ?_, ?_, ?_, hv⟩
  · rw [htrace, sent_append]; simp [sent]
  · intro ch hch
    rw [htrace, sent_append]
    simp [sent, Ne.symm hch]
  · rw [htrace, getExecutionStatusCalls_append]; simp [getExecutionStatusCalls]

/-- Instance of C6: status COMPLETED with output {}, expected COMPLETED and {}:
nil is delivered. -/
theorem ValidateWorkflowDaemon_delivers_witness :
    sent 0 (ValidateWorkflowDaemon stubAllSucceed 5 0 "wf-9" emptyMap "COMPLETED" [])
      = [none] := by
  obtain ⟨v, hsent, _, _, hv⟩ :=
    ValidateWorkflowDaemon_delivers stubAllSucceed 5 0 "wf-9" emptyMap "COMPLETED" []
  have hnil : v = none := hv.mpr (by decide)
  rw [hsent, hnil]
  rfl

/-- C8 (amended): with a nil expectedOutput the output is still compared by
reflect.DeepEqual: when the status query succeeds and the observed status
equals expectedStatus, ValidateWorkflowDaemon delivers nil exactly when the
observed output is itself a nil map, and for any non-nil observed output it
delivers the output-mismatch error. -/
theorem ValidateWorkflowDaemon_nil_expected [GoValue V] (c : Collaborators V)
    (waitTime : Duration) (outputChannel : Nat) (workflowId : String)
    (expectedStatus : WorkflowStatus) (t : Trace)
    (hquery : (c.GetExecutionStatus (getExecutionStatusCalls t) workflowId).2 = none)
    (hstatus : (c.GetExecutionStatus (getExecutionStatusCalls t) workflowId).1.Status
      = expectedStatus) :
    (sent outputChannel
        (ValidateWorkflowDaemon c waitTime outputChannel workflowId none expectedStatus t)
      = sent outputChannel t ++ [none]
      ↔ (c.GetExecutionStatus (getExecutionStatusCalls t) workflowId).1.Output = none) ∧
    ((c.GetExecutionStatus (getExecutionStatusCalls t) workflowId).1.Output ≠ none →
      sent outputChannel
          (ValidateWorkflowDaemon c waitTime outputChannel workflowId none expectedStatus t)
        = sent outputChannel t ++
          [some ("workflow output is different than expected, workflowId: " ++
            (c.GetExecutionStatus (getExecutionStatusCalls t) workflowId).1.WorkflowId ++
            ", output: " ++
            GoValue.formatMap
              (c.GetExecutionStatus (getExecutionStatusCalls t) workflowId).1.Output)]) := by
  have hdeep : ∀ m : GoMap V, DeepEqual m none = true ↔ m = none := by
    intro m
    cases m <;> simp [DeepEqual]
  constructor
  · obtain ⟨v, htrace, hv⟩ :=
      ValidateWorkflowDaemon_trace c waitTime outputChannel workflowId none expectedStatus t
    rw [htrace, sent_append]
    simp only [sent, List.filterMap_cons, List.filterMap_nil, if_true,
      List.append_cancel_left_eq, List.cons.injEq, and_true]
    rw [hv, hdeep]
    simp [hquery, hstatus]
  · intro hout
    have hcount : getExecutionStatusCalls (timeSleep waitTime t) = getExecutionStatusCalls t := by
      simp [timeSleep, getExecutionStatusCalls_append, getExecutionStatusCalls]
    have hd : DeepEqual (c.GetExecutionStatus (getExecutionStatusCalls t) workflowId).1.Output
        none = false := by
      rw [Bool.eq_false_iff]
      intro h
      exact hout ((hdeep _).mp h)
    simp only [ValidateWorkflowDaemon, callGetExecutionStatus, hcount]
    revert hquery hstatus hd
    generalize c.GetExecutionStatus (getExecutionStatusCalls t) workflowId = q
    obtain ⟨workflow, err⟩ := q
    intro hquery hstatus hd
    simp only at hquery hstatus hd
    subst hquery
    simp [chanSend, timeSleep, isWorkflowCompleted, hstatus, hd, sent_append, sent]

/-- Instance of amended C8: the query reports COMPLETED with a nil output and
expectedOutput is nil, so nil is delivered. -/
theorem ValidateWorkflowDaemon_nil_expected_witness :
    sent 0
        (ValidateWorkflowDaemon (stubStatusQuery "COMPLETED" none) 5 0 "wf-9" none
          "COMPLETED" [])
      = [none] :=
  (ValidateWorkflowDaemon_nil_expected (stubStatusQuery "COMPLETED" none) 5 0 "wf-9"
    "COMPLETED" [] (by decide) (by decide)).1.mpr rfl

/-- C8 (as stated) fails: the query succeeds with status COMPLETED and the
output map holding the one entry result = 42; with expectedStatus COMPLETED and
a nil expectedOutput the daemon delivers the output-mismatch error, not nil. -/
theorem ValidateWorkflowDaemon_nil_expected_counterexample :
    ((stubStatusQuery "COMPLETED" (some [("result", "42")])).GetExecutionStatus
        (getExecutionStatusCalls []) "wf-9").2 = none ∧
      ((stubStatusQuery "COMPLETED" (some [("result", "42")])).GetExecutionStatus
        (getExecutionStatusCalls []) "wf-9").1.Status = "COMPLETED" ∧
      sent 0
          (ValidateWorkflowDaemon (stubStatusQuery "COMPLETED" (some [("result", "42")]))
            5 0 "wf-9" none "COMPLETED" [])
        = [some ("workflow output is different than expected, workflowId: wf-9, " ++
            "output: map[result:42]")] := by
  decide

end DaemonLemmas

section ValidateWorkflowLemmas

variable {V : Type}

/-- Events that the registration retry loop can add to the trace. -/
theorem ValidateWorkflowRegistration.loop_trace (c : Collaborators V)
    (workflow : ConductorWorkflow) (attempts : List Nat) :
    ∀ t : Trace, ∃ ext : Trace,
      (ValidateWorkflowRegistration.loop c workflow attempts t).2 = t ++ ext ∧
        ∀ e ∈ ext, (∃ n o, e = Event.Register n o) ∨ (∃ d, e = Event.Sleep d) ∨
          (∃ l, e = Event.Println l) := by
  induction attempts with
  | nil => intro t; exact ⟨[], by simp [ValidateWorkflowRegistration.loop], by simp⟩
  | cons a rest ih =>
    intro t
    cases h : c.Register (registerCalls t) workflow true with
    | none =>
      rw [ValidateWorkflowRegistration.loop_cons_ok c workflow a rest t h]
      exact ⟨_, rfl, by simp⟩
    | some e =>
      rw [ValidateWorkflowRegistration.loop_cons_fail c workflow a rest t e h]
      obtain ⟨ext, hext, hall⟩ := ih
        (t ++ [Event.Register workflow.name true, Event.Sleep (((a : Int) + 2) * Second),
          Event.Println ("Failed to validate workflow registration, reason: " ++ e)])
      refine ⟨[Event.Register workflow.name true, Event.Sleep (((a : Int) + 2) * Second),
          Event.Println ("Failed to validate workflow registration, reason: " ++ e)] ++ ext,
        by rw [hext, List.append_assoc], ?_⟩
      intro ev hev
      rcases List.mem_append.mp hev with h1 | h2
      · simp at h1
        rcases h1 with h1 | h1 | h1
        · exact Or.inl ⟨_, _, h1⟩
        · exact Or.inr (Or.inl ⟨_, h1⟩)
        · exact Or.inr (Or.inr ⟨_, h1⟩)
      · exact hall ev h2

/-- Registration makes no start, monitor or wait call. -/
theorem ValidateWorkflowRegistration_other_calls (c : Collaborators V)
    (workflow : ConductorWorkflow) (t : Trace) :
    startWorkflowWithInputCalls (ValidateWorkflowRegistration c workflow t).2
        = startWorkflowWithInputCalls t ∧
      monitorExecutionCalls (ValidateWorkflowRegistration c workflow t).2
        = monitorExecutionCalls t ∧
      waitForWorkflowCompletionCalls (ValidateWorkflowRegistration c workflow t).2
        = waitForWorkflowCompletionCalls t := by
  obtain ⟨ext, hext, hall⟩ :=
    ValidateWorkflowRegistration.loop_trace c workflow (List.range 5) t
  simp only [ValidateWorkflowRegistration, hext]
  refine ⟨?_, ?_, ?_⟩
  · simp only [startWorkflowWithInputCalls, List.countP_append, Nat.add_right_eq_self,
      List.countP_eq_zero]
    intro e he
    rcases hall e he with ⟨_, _, h⟩ | ⟨_, h⟩ | ⟨_, h⟩ <;> simp [h]
  · simp only [monitorExecutionCalls, List.countP_append, Nat.add_right_eq_self,
      List.countP_eq_zero]
    intro e he
    rcases hall e he with ⟨_, _, h⟩ | ⟨_, h⟩ | ⟨_, h⟩ <;> simp [h]
  · simp only [waitForWorkflowCompletionCalls, List.countP_append, Nat.add_right_eq_self,
      List.countP_eq_zero]
    intro e he
    rcases hall e he with ⟨_, _, h⟩ | ⟨_, h⟩ | ⟨_, h⟩ <;> simp [h]

theorem monitorExecutionCalls_start (workflow : ConductorWorkflow) (t : Trace) :
    monitorExecutionCalls (t ++ [Event.StartWorkflowWithInput workflow.name])
      = monitorExecutionCalls t := by
  simp [monitorExecutionCalls, List.countP_append]

theorem waitForWorkflowCompletionCalls_start (workflow : ConductorWorkflow) (t : Trace) :
    waitForWorkflowCompletionCalls (t ++ [Event.StartWorkflowWithInput workflow.name])
      = waitForWorkflowCompletionCalls t := by
  simp [waitForWorkflowCompletionCalls, List.countP_append]

theorem waitForWorkflowCompletionCalls_monitor (workflowId : String) (t : Trace) :
    waitForWorkflowCompletionCalls (t ++ [Event.MonitorExecution workflowId])
      = waitForWorkflowCompletionCalls t := by
  simp [waitForWorkflowCompletionCalls, List.countP_append]

/-- C5: ValidateWorkflow runs registration, start, MonitorExecution and the
bounded wait in this order; the first of them that returns an error makes
ValidateWorkflow return that error, the trace ending right after the failing
step (no later step is called); when all four succeed and the wait delivers a
non-nil workflow, ValidateWorkflow returns nil if and only if its
status equals expectedStatus, and otherwise the unexpected-status error. -/
theorem ValidateWorkflow_spec (c : Collaborators V) (conductorWorkflow : ConductorWorkflow)
    (timeout : Duration) (expectedStatus : WorkflowStatus) (t : Trace) :
    let r1 := ValidateWorkflowRegistration c conductorWorkflow t
    let r2 := callStartWorkflowWithInput c conductorWorkflow emptyMap r1.2
    let r3 := callMonitorExecution c r2.1.1 r2.2
    let r4 := callWaitForWorkflowCompletionUntilTimeout c r3.1.1 timeout r3.2
    let out := ValidateWorkflow c conductorWorkflow timeout expectedStatus t
    (∀ e, r1.1 = some e →
      out = (Outcome.ret (some e), r1.2) ∧
        startWorkflowWithInputCalls out.2 = startWorkflowWithInputCalls t ∧
        monitorExecutionCalls out.2 = monitorExecutionCalls t ∧
        waitForWorkflowCompletionCalls out.2 = waitForWorkflowCompletionCalls t) ∧
    (r1.1 = none → ∀ e, r2.1.2 = some e →
      out = (Outcome.ret (some e), r2.2) ∧
        monitorExecutionCalls out.2 = monitorExecutionCalls t ∧
        waitForWorkflowCompletionCalls out.2 = waitForWorkflowCompletionCalls t) ∧
    (r1.1 = none → r2.1.2 = none → ∀ e, r3.1.2 = some e →
      out = (Outcome.ret (some e), r3.2) ∧
        waitForWorkflowCompletionCalls out.2 = waitForWorkflowCompletionCalls t) ∧
    (r1.1 = none → r2.1.2 = none → r3.1.2 = none → ∀ e, r4.1.2 = some e →
      out = (Outcome.ret (some e), r4.2)) ∧
    (r1.1 = none → r2.1.2 = none → r3.1.2 = none → r4.1.2 = none →
      ∀ wf, r4.1.1 = some wf →
        out.2 = r4.2 ∧
          (out.1 = Outcome.ret none ↔ wf.Status = expectedStatus) ∧
          (wf.Status ≠ expectedStatus →
            out.1 = Outcome.ret
              (some ("workflow finished with unexpected status: " ++ wf.Status)))) := by
  intro r1 r2 r3 r4 out
  obtain ⟨hs, hm, hw⟩ := ValidateWorkflowRegistration_other_calls c conductorWorkflow t
  refine ⟨?_, ?_, ?_, ?_, ?_⟩
  · intro e h1
    have hout : out = (Outcome.ret (some e), r1.2) := by
      simp only [out, ValidateWorkflow]
      simp only [r1] at h1
      simp only [h1, r1]
    rw [hout]
    exact ⟨rfl, hs, hm, hw⟩
  · intro h1 e h2
    have hout : out = (Outcome.ret (some e), r2.2) := by
      simp only [out, ValidateWorkflow]
      simp only [r1] at h1
      simp only [r2, r1] at h2
      simp only [h1, h2, r2, r1]
    rw [hout]
    simp only [r2, callStartWorkflowWithInput, monitorExecutionCalls_start,
      waitForWorkflowCompletionCalls_start]
    exact ⟨trivial, hm, hw⟩
  · intro h1 h2 e h3
    have hout : out = (Outcome.ret (some e), r3.2) := by
      simp only [out, ValidateWorkflow]
      simp only [r1] at h1
      simp only [r2, r1] at h2
      simp only [r3, r2, r1] at h3
      simp only [h1, h2, h3, r3, r2, r1]
    rw [hout]
    simp only [r3, r2, callMonitorExecution, callStartWorkflowWithInput,
      waitForWorkflowCompletionCalls_monitor, waitForWorkflowCompletionCalls_start]
    exact ⟨trivial, hw⟩
  · intro h1 h2 h3 e h4
    simp only [out, ValidateWorkflow]
    simp only [r1] at h1
    simp only [r2, r1] at h2
    simp only [r3, r2, r1] at h3
    simp only [r4, r3, r2, r1] at h4
    simp only [h1, h2, h3, h4, r4, r3, r2, r1]
  · intro h1 h2 h3 h4 wf h5
    simp only [r1] at h1
    simp only [r2, r1] at h2
    simp only [r3, r2, r1] at h3
    simp only [r4, r3, r2, r1] at h4 h5
    by_cases hst : wf.Status = expectedStatus
    · simp [out, ValidateWorkflow, h1, h2, h3, h4, h5, r4, r3, r2, r1, isWorkflowCompleted, hst]
    · simp [out, ValidateWorkflow, h1, h2, h3, h4, h5, r4, r3, r2, r1, isWorkflowCompleted, hst]

/-- Instance of C5: registration exhausted, the wait timing out, and a run in
which every step succeeds. -/
theorem ValidateWorkflow_spec_witness :
    ValidateWorkflow stubRegisterNever demoWorkflow 10 "COMPLETED" []
        = (Outcome.ret (some "exhausted retries"),
            (ValidateWorkflowRegistration stubRegisterNever demoWorkflow []).2) ∧
      ValidateWorkflow stubWaitTimeout demoWorkflow 10 "COMPLETED" []
        = (Outcome.ret (some "wait timeout"),
            [Event.Register "demo" true, Event.StartWorkflowWithInput "demo",
              Event.MonitorExecution "wf-1",
              Event.WaitForWorkflowCompletionUntilTimeout 0 10]) ∧
      ((ValidateWorkflow stubAllSucceed demoWorkflow 10 "COMPLETED" []).1 = Outcome.ret none
        ↔ (finishedWorkflow "wf-1" "COMPLETED").Status = "COMPLETED") := by
  have hA := ((ValidateWorkflow_spec stubRegisterNever demoWorkflow 10 "COMPLETED" []).1
    "exhausted retries" (by decide)).1
  have hB := (ValidateWorkflow_spec stubWaitTimeout demoWorkflow 10 "COMPLETED" []).2.2.2.1
    (by decide) (by decide) (by decide) "wait timeout" (by decide)
  have hC := ((ValidateWorkflow_spec stubAllSucceed demoWorkflow 10 "COMPLETED" []).2.2.2.2
    (by decide) (by decide) (by decide) (by decide)
    (finishedWorkflow "wf-1" "COMPLETED") rfl).2.1
  exact ⟨hA, hB, hC⟩

end ValidateWorkflowLemmas

section BulkLemmas

variable {V : Type}

/-- The verdict loop stops at the first instance whose status is not
COMPLETED when the instances before it pass all three checks. -/
theorem ValidateWorkflowBulk.loop_first_bad (err : GoError)
    (pre suf : List (RunningWorkflow V)) (bad : RunningWorkflow V) (wf : Workflow V)
    (hpre : ∀ r ∈ pre, r.Err = none ∧
      ∃ w, r.CompletedWorkflow = some w ∧ w.Status = CompletedWorkflow)
    (hbadErr : bad.Err = none) (hbad : bad.CompletedWorkflow = some wf)
    (hstatus : wf.Status ≠ CompletedWorkflow) :
    ValidateWorkflowBulk.loop err (pre ++ bad :: suf)
      = some ("workflow finished with status: " ++ wf.Status) := by
  induction pre with
  | nil =>
    simp [ValidateWorkflowBulk.loop, hbadErr, hbad, isWorkflowCompleted, hstatus]
  | cons r pre ih =>
    obtain ⟨hr, w, hw, hws⟩ := hpre r (List.mem_cons_self _ _)
    have ih' := ih (fun r' hr' => hpre r' (List.mem_cons_of_mem _ hr'))
    simp [ValidateWorkflowBulk.loop, hr, hw, isWorkflowCompleted, hws, ih']

/-- Among outcomes that all carry a nil Err and a non-nil CompletedWorkflow,
if some status differs from COMPLETED there is a first such instance. -/
theorem ValidateWorkflowBulk.exists_first_bad (l : List (RunningWorkflow V))
    (hall : ∀ x ∈ l, x.Err = none ∧ x.CompletedWorkflow ≠ none)
    (hex : ∃ x ∈ l, ∃ w, x.CompletedWorkflow = some w ∧ w.Status ≠ CompletedWorkflow) :
    ∃ (pre : List (RunningWorkflow V)) (bad : RunningWorkflow V)
      (suf : List (RunningWorkflow V)) (wf : Workflow V),
      l = pre ++ bad :: suf ∧
        (∀ x ∈ pre, ∀ w, x.CompletedWorkflow = some w → w.Status = CompletedWorkflow) ∧
        bad.CompletedWorkflow = some wf ∧ wf.Status ≠ CompletedWorkflow := by
  induction l with
  | nil =>
    obtain ⟨x, hx, _⟩ := hex
    simp at hx
  | cons a l ih =>
    obtain ⟨w, hw⟩ := Option.ne_none_iff_exists'.mp (hall a (List.mem_cons_self _ _)).2
    by_cases hs : w.Status = CompletedWorkflow
    · have hex' : ∃ x ∈ l, ∃ w, x.CompletedWorkflow = some w ∧ w.Status ≠ CompletedWorkflow := by
        obtain ⟨x, hx, w', hw', hne⟩ := hex
        rcases List.mem_cons.mp hx with h | h
        · subst h
          rw [hw] at hw'
          cases hw'
          exact absurd hs hne
        · exact ⟨x, h, w', hw', hne⟩
      obtain ⟨pre, bad, suf, wf, hl, hpre, hbad, hne⟩ :=
        ih (fun x hx => hall x (List.mem_cons_of_mem _ hx)) hex'
      refine ⟨a :: pre, bad, suf, wf, by rw [hl]; rfl, ?_, hbad, hne⟩
      intro x hx w' hw'
      rcases List.mem_cons.mp hx with h | h
      · subst h
        rw [hw] at hw'
        cases hw'
        exact hs
      · exact hpre x h w' hw'
    · exact ⟨[], a, l, w, rfl, by simp, hw, hs⟩

/-- C4: when registration succeeds (and the bulk start is reached: the slice
of amount requests on line 174 is allocated, amount ≥ 0 and 8 amount bytes
within a machine word, the allocation limit and the memory available) and
every instance outcome has a nil Err and a non-nil CompletedWorkflow: if `bad`
is the first instance whose status differs from COMPLETED (those before it,
`pre`, are COMPLETED), ValidateWorkflowBulk returns the error
"workflow finished with status: " followed by the status of `bad`; and if at
least one status differs from COMPLETED, such a first instance exists and the
result is that non-nil error. -/
theorem ValidateWorkflowBulk_first_bad_status (rt : Runtime) (c : Collaborators V)
    (conductorWorkflow : ConductorWorkflow) (timeout : Duration) (amount : Int) (t : Trace) :
    let r := ValidateWorkflowRegistration c conductorWorkflow t
    let started := callStartWorkflows c true
      (ValidateWorkflowBulk.requests conductorWorkflow conductorWorkflow.version amount.toNat
        amount.toNat)
      r.2
    let outcomes := callWaitForRunningWorkflowsUntilTimeout c timeout started.1 started.2
    r.1 = none → 0 ≤ amount →
    pointerSize * amount.toNat < 2 ^ 64 →
    pointerSize * amount.toNat ≤ rt.maxAlloc →
    pointerSize * amount.toNat ≤ rt.heapAvailable →
    (∀ x ∈ outcomes.1, x.Err = none ∧ x.CompletedWorkflow ≠ none) →
    (∀ (pre : List (RunningWorkflow V)) (bad : RunningWorkflow V)
        (suf : List (RunningWorkflow V)) (wf : Workflow V),
      outcomes.1 = pre ++ bad :: suf →
      (∀ x ∈ pre, ∀ w, x.CompletedWorkflow = some w → w.Status = CompletedWorkflow) →
      bad.CompletedWorkflow = some wf → wf.Status ≠ CompletedWorkflow →
      (ValidateWorkflowBulk rt c conductorWorkflow timeout amount t).1
        = Outcome.ret (some ("workflow finished with status: " ++ wf.Status))) ∧
    ((∃ x ∈ outcomes.1, ∃ w, x.CompletedWorkflow = some w ∧ w.Status ≠ CompletedWorkflow) →
      ∃ (pre : List (RunningWorkflow V)) (bad : RunningWorkflow V)
        (suf : List (RunningWorkflow V)) (wf : Workflow V),
        outcomes.1 = pre ++ bad :: suf ∧
          (∀ x ∈ pre, ∀ w, x.CompletedWorkflow = some w → w.Status = CompletedWorkflow) ∧
          bad.CompletedWorkflow = some wf ∧ wf.Status ≠ CompletedWorkflow ∧
          (ValidateWorkflowBulk rt c conductorWorkflow timeout amount t).1
            = Outcome.ret (some ("workflow finished with status: " ++ wf.Status))) := by
  intro r started outcomes hreg hamount hword hmax hheap hall
  have hmake := makeslice_ret rt pointerSize amount hamount hword hmax hheap
  have hfirst : ∀ (pre : List (RunningWorkflow V)) (bad : RunningWorkflow V)
      (suf : List (RunningWorkflow V)) (wf : Workflow V),
      outcomes.1 = pre ++ bad :: suf →
      (∀ x ∈ pre, ∀ w, x.CompletedWorkflow = some w → w.Status = CompletedWorkflow) →
      bad.CompletedWorkflow = some wf → wf.Status ≠ CompletedWorkflow →
      (ValidateWorkflowBulk rt c conductorWorkflow timeout amount t).1
        = Outcome.ret (some ("workflow finished with status: " ++ wf.Status)) := by
    intro pre bad suf wf hsplit hpre hbad hstatus
    have hloop : ValidateWorkflowBulk.loop r.1 outcomes.1
        = some ("workflow finished with status: " ++ wf.Status) := by
      rw [hsplit]
      apply ValidateWorkflowBulk.loop_first_bad r.1 pre suf bad wf _ _ hbad hstatus
      · intro x hx
        have hx' : x ∈ outcomes.1 := by rw [hsplit]; exact List.mem_append_left _ hx
        obtain ⟨h1, h2⟩ := hall x hx'
        obtain ⟨w, hw⟩ := Option.ne_none_iff_exists'.mp h2
        exact ⟨h1, w, hw, hpre x hx w hw⟩
      · have hb : bad ∈ outcomes.1 := by rw [hsplit]; simp
        exact (hall bad hb).1
    simp only [r] at hreg
    simp only [outcomes, started, r] at hloop
    simp only [ValidateWorkflowBulk]
    simp only [hreg, hmake] at hloop ⊢
    rw [hloop]
  refine ⟨hfirst, ?_⟩
  intro hex
  obtain ⟨pre, bad, suf, wf, hsplit, hpre, hbad, hne⟩ :=
    ValidateWorkflowBulk.exists_first_bad outcomes.1 hall hex
  exact ⟨pre, bad, suf, wf, hsplit, hpre, hbad, hne, hfirst pre bad suf wf hsplit hpre hbad hne⟩

/-- Instance of C4: statuses COMPLETED, FAILED, COMPLETED give the error naming
FAILED. -/
theorem ValidateWorkflowBulk_first_bad_status_witness :
    (ValidateWorkflowBulk linuxAmd64 (stubBulkStatuses ["COMPLETED", "FAILED", "COMPLETED"])
        demoWorkflow 10 3 []).1
      = Outcome.ret (some "workflow finished with status: FAILED") :=
  (ValidateWorkflowBulk_first_bad_status linuxAmd64
    (stubBulkStatuses ["COMPLETED", "FAILED", "COMPLETED"]) demoWorkflow 10 3 []
    (by decide) (by decide) (by decide) (by decide) (by decide)
    (by
      intro x hx
      have hmem : x ∈ [resolvedInstance "COMPLETED", resolvedInstance "FAILED",
          resolvedInstance "COMPLETED"] := hx
      simp only [List.mem_cons, List.mem_singleton, List.not_mem_nil, or_false] at hmem
      rcases hmem with h | h | h <;> simp [h, resolvedInstance])).1
    [resolvedInstance "COMPLETED"] (resolvedInstance "FAILED") [resolvedInstance "COMPLETED"]
    (finishedWorkflow "wf" "FAILED")
    rfl
    (by
      intro x hx w hw
      simp only [List.mem_singleton] at hx
      rw [hx] at hw
      simp only [resolvedInstance, Option.some.injEq] at hw
      rw [← hw]
      rfl)
    rfl (by decide)

/-- C3 (evaluation at the failing input): registration succeeds and the one
bulk instance carries the error "workflow start rejected", yet
ValidateWorkflowBulk returns nil: line 187 returns the registration error
variable, which is nil there, instead of the error of the instance. -/
theorem ValidateWorkflowBulk_instance_error_returns_nil :
    (ValidateWorkflowRegistration stubBulkInstanceError demoWorkflow []).1 = none ∧
      ((callWaitForRunningWorkflowsUntilTimeout stubBulkInstanceError 10
          (callStartWorkflows stubBulkInstanceError true
            (ValidateWorkflowBulk.requests demoWorkflow 1 1 1)
            (ValidateWorkflowRegistration stubBulkInstanceError demoWorkflow []).2).1
          (callStartWorkflows stubBulkInstanceError true
            (ValidateWorkflowBulk.requests demoWorkflow 1 1 1)
            (ValidateWorkflowRegistration stubBulkInstanceError demoWorkflow []).2).2).1.map
        (fun r => r.Err)) = [some "workflow start rejected"] ∧
      (ValidateWorkflowBulk linuxAmd64 stubBulkInstanceError demoWorkflow 10 1 []).1
        = Outcome.ret none := by
  decide

end BulkLemmas

section TaskRegistrationLemmas

/-- C9 (evaluation at the failing input): RegisterTaskDef returns a nil
response together with the error "connection refused"; ValidateTaskRegistration
does not return that error but panics, because the arguments of the log.Debug
call on lines 205-208 include the dereference of the nil response. -/
theorem ValidateTaskRegistration_nil_response_panics :
    (stubTransportFailure.RegisterTaskDef (registerTaskDefCalls []) [{ Name := "task" }])
        = (none, some "connection refused") ∧
      (ValidateTaskRegistration stubTransportFailure [{ Name := "task" }] []).1
        = Outcome.panic nilDereference := by
  decide

end TaskRegistrationLemmas

end Testdata
